import Mathlib

/-!
Verification of the nav-scoring engine (`src/app/scoring_engine.py`, class
`NavScoringEngine`) and the flight-submission scoring loop of
`src/app/app.py` (`submit_flight`).

Modelling conventions:
* Latitudes, longitudes, timestamps (seconds) and distances (nautical
  miles) are rationals; the Python code's float arithmetic is read as
  exact arithmetic.
* The geodesy primitives `haversine_distance` (which delegates to the
  external geopy library's geodesic) and `calculate_bearing` (pure
  trigonometry from the math library) are abstracted as parameters of a
  `Geodesy` structure: every property claimed of the locators and of the
  precedence logic is independent of the concrete geodesic, so the
  theorems below are proved for an arbitrary `Geodesy`, which is strictly
  stronger than proving them for the concrete one.
* Python `None` becomes `Option.none`.  `find_checkpoint_crossing`
  returns `timing_point = None` exactly when it returns
  `crossing_distance = float("inf")`, so the pair is bundled as a single
  `Option` field `found`.
* The fuel-penalty calculator uses the real exponential, so it is
  embedded over `ℝ`; everything else is executable over `ℚ`.
-/

namespace NavScoring

/-- A parsed GPS track point (lat, lon, timestamp in seconds, ground
speed in m/s); elevation is never consulted by the scoring engine. -/
structure TrackPoint where
  lat : ℚ
  lon : ℚ
  time : ℚ
  speed : ℚ
  deriving DecidableEq, Repr

/-- A bare latitude/longitude pair (checkpoints, start gates, and the
coordinate part of track points). -/
structure Coord where
  lat : ℚ
  lon : ℚ
  deriving DecidableEq, Repr

/-- Coordinate part of a track point. -/
def TrackPoint.coord (p : TrackPoint) : Coord := ⟨p.lat, p.lon⟩

/-- A point carrying a timestamp but no speed: the shape of the dict
returned by `interpolate_point` and of the `timing_point` output of
`find_checkpoint_crossing`. -/
structure TimedCoord where
  lat : ℚ
  lon : ℚ
  time : ℚ
  deriving DecidableEq, Repr

/-- View a track point as a timed coordinate (dropping speed), as the
Python code does when it returns a raw track point as a timing point. -/
def TrackPoint.toTimed (p : TrackPoint) : TimedCoord := ⟨p.lat, p.lon, p.time⟩

/-- Coordinate part of a timed coordinate. -/
def TimedCoord.coord (p : TimedCoord) : Coord := ⟨p.lat, p.lon⟩

/-- Abstraction of the two geodesy primitives of `NavScoringEngine`:
`dist` models `haversine_distance` (geodesic distance in nautical miles,
delegated by the source to the external geopy library) and `bearing`
models `calculate_bearing` (initial great-circle bearing in degrees).
All claims checked below hold for every choice of these functions. -/
structure Geodesy where
  dist : Coord → Coord → ℚ
  bearing : Coord → Coord → ℚ

/-- Python's float modulo (sign of the divisor), used for the `% 360`
normalisations; for the positive divisors appearing in the source it is
`a - b * ⌊a / b⌋`. -/
def qmod (a b : ℚ) : ℚ := a - b * ⌊a / b⌋

/-- Configuration subtree `scoring.off_course` with the defaults the
source supplies to `dict.get`. -/
structure OffCourseCfg where
  max_no_penalty_nm : ℚ
  max_penalty_points : ℚ
  max_penalty_distance_nm : ℚ
  deriving DecidableEq, Repr

/-- Configuration subtree `scoring` as consumed by `calculate_leg_score`
and `find_checkpoint_crossing`. -/
structure ScoringCfg where
  timing_penalty_per_second : ℚ
  off_course : OffCourseCfg
  deriving DecidableEq, Repr

/-- The source's `dict.get` default values: radius 0.25 NM, max penalty
600 points at 5.0 NM, timing penalty 1.0 points per second. -/
def defaultCfg : ScoringCfg :=
  { timing_penalty_per_second := 1
    off_course :=
      { max_no_penalty_nm := 1/4
        max_penalty_points := 600
        max_penalty_distance_nm := 5 } }

/-- Embedding of `NavScoringEngine.side_of_plane` (scoring_engine.py
lines 50-54): +1 when the normalised bearing offset is below 180
degrees, otherwise -1. -/
def side_of_plane (g : Geodesy) (point checkpoint : Coord) (plane_bearing : ℚ) : Int :=
  let point_bearing := g.bearing checkpoint point
  let angle_diff := qmod (point_bearing - plane_bearing + 360) 360
  if angle_diff < 180 then 1 else -1

/-- Embedding of `NavScoringEngine.interpolate_point` (lines 56-64):
linear interpolation of latitude, longitude and timestamp. -/
def interpolate_point (p1 p2 : TrackPoint) (fraction : ℚ) : TimedCoord :=
  { lat := p1.lat + fraction * (p2.lat - p1.lat)
    lon := p1.lon + fraction * (p2.lon - p1.lon)
    time := p1.time + fraction * (p2.time - p1.time) }

/-- Embedding of `NavScoringEngine.calculate_leg_score` (lines 273-316).
Returns `(leg_score, off_course_penalty)`; `min_penalty` is the
hard-coded 100 of line 299. -/
def calculate_leg_score (cfg : ScoringCfg) (actual_time estimated_time distance_nm : ℚ)
    (within_025_nm : Bool) : ℚ × ℚ :=
  let deviation := actual_time - estimated_time
  let leg_score := |deviation| * cfg.timing_penalty_per_second
  let off_course_penalty :=
    if within_025_nm then 0
    else
      let checkpoint_radius := cfg.off_course.max_no_penalty_nm
      let min_penalty : ℚ := 100
      let max_penalty := cfg.off_course.max_penalty_points
      let max_distance := cfg.off_course.max_penalty_distance_nm
      let threshold_distance := checkpoint_radius + 1/100
      if threshold_distance ≤ distance_nm ∧ distance_nm ≤ max_distance then
        let fraction := (distance_nm - threshold_distance) / (max_distance - threshold_distance)
        min_penalty + fraction * (max_penalty - min_penalty)
      else if distance_nm > max_distance then max_penalty
      else 0
  (leg_score, off_course_penalty)

/-- Configuration subtree `scoring.fuel_burn` as consumed by
`calculate_fuel_penalty`, over ℝ because the penalty formula uses the
exponential. -/
structure FuelCfg where
  over_estimate_multiplier : ℝ
  under_estimate_multiplier : ℝ
  over_estimate_threshold : ℝ

/-- Embedding of `NavScoringEngine.calculate_fuel_penalty` (lines
318-350): signed relative error, exponential penalty with no tolerance
for underestimates and a tolerance band for overestimates. -/
noncomputable def calculate_fuel_penalty (cfg : FuelCfg) (estimated_fuel actual_fuel : ℝ) : ℝ :=
  if estimated_fuel = 0 then 0
  else
    let fuel_error := (estimated_fuel - actual_fuel) / estimated_fuel
    if fuel_error < 0 then
      cfg.under_estimate_multiplier * (Real.exp |fuel_error| - 1)
    else if fuel_error > cfg.over_estimate_threshold then
      cfg.over_estimate_multiplier * (Real.exp fuel_error - 1)
    else 0

/-- First element of a list of (point, distance) pairs minimising the
distance, with ties resolved in favour of the earlier element — the
behaviour of Python's `min(candidates, key=lambda x: x[1])`. -/
def min_by_dist : List (TrackPoint × ℚ) → Option (TrackPoint × ℚ)
  | [] => none
  | x :: xs => some (xs.foldl (fun acc y => if y.2 < acc.2 then y else acc) x)

/-- First element of a list minimising the key `f`, ties resolved in
favour of the earlier element — Python's `min(l, key=f)` (returns `none`
on the empty list, where Python raises). -/
def min_by_key (f : TrackPoint → ℚ) : List TrackPoint → Option TrackPoint
  | [] => none
  | x :: xs => some (xs.foldl (fun acc y => if f y < f acc then y else acc) x)

/-- The successive values of `distance_threshold` taken by the
`while distance_threshold <= MAX_DISTANCE_THRESHOLD` loop of
`detect_start_gate_crossing` (lines 78-121) in exact arithmetic:
0.02, 0.03, ..., 0.10 (the next increment, 0.11, exceeds the bound). -/
def thresholds : List ℚ :=
  [2/100, 3/100, 4/100, 5/100, 6/100, 7/100, 8/100, 9/100, 10/100]

/-- The speed-filtered candidate scan of `detect_start_gate_crossing`
(lines 83-92): points no later than `time_limit`, within
`distance_threshold` of the gate, and at ground speed at least the
takeoff threshold 5.0 m/s, paired with their distances. -/
def start_candidates_speed (g : Geodesy) (track_points : List TrackPoint)
    (start_gate : Coord) (time_limit distance_threshold : ℚ) : List (TrackPoint × ℚ) :=
  track_points.filterMap (fun point =>
    if point.time > time_limit then none
    else
      let distance := g.dist point.coord start_gate
      if distance ≤ distance_threshold ∧ point.speed ≥ 5 then some (point, distance)
      else none)

/-- The unfiltered candidate comprehension of `detect_start_gate_crossing`
(lines 104-111): points within `distance_threshold` of the gate and no
later than `time_limit`, paired with their distances. -/
def start_candidates_all (g : Geodesy) (track_points : List TrackPoint)
    (start_gate : Coord) (time_limit distance_threshold : ℚ) : List (TrackPoint × ℚ) :=
  track_points.filterMap (fun point =>
    let distance := g.dist point.coord start_gate
    if distance ≤ distance_threshold ∧ point.time ≤ time_limit then some (point, distance)
    else none)

/-- One iteration of the threshold-expansion loop of
`detect_start_gate_crossing` (lines 82-121): the speed-filtered scan
first, then the unfiltered scan, returning the closest candidate of the
first non-empty set. -/
def start_gate_step (g : Geodesy) (track_points : List TrackPoint) (start_gate : Coord)
    (time_limit distance_threshold : ℚ) : Option (TrackPoint × ℚ) :=
  match min_by_dist (start_candidates_speed g track_points start_gate time_limit distance_threshold) with
  | some best => some best
  | none => min_by_dist (start_candidates_all g track_points start_gate time_limit distance_threshold)

/-- The cutoff `time_limit` of lines 79-80: the first timestamp plus
half of the track's total duration. -/
def half_time_limit (p0 : TrackPoint) (rest : List TrackPoint) : ℚ :=
  p0.time + (((p0 :: rest).getLast (List.cons_ne_nil p0 rest)).time - p0.time) * (1/2)

/-- Embedding of `NavScoringEngine.detect_start_gate_crossing` (lines
66-124).  The Python code indexes `track_points[-1]` and
`track_points[0]`, raising on an empty track; the claims below only
concern non-empty tracks, for which the `[]` case is irrelevant. -/
def detect_start_gate_crossing (g : Geodesy) (track_points : List TrackPoint)
    (start_gate : Coord) : Option (TrackPoint × ℚ) :=
  match track_points with
  | [] => none
  | p0 :: rest =>
    thresholds.findSome? (fun distance_threshold =>
      start_gate_step g track_points start_gate (half_time_limit p0 rest) distance_threshold)

/-- Detection method of `find_checkpoint_crossing`: the source's strings
"CTP", "Radius Entry" and "PCA". -/
inductive Method where
  | CTP
  | RadiusEntry
  | PCA
  deriving DecidableEq, Repr

/-- Result tuple of `find_checkpoint_crossing`.  The Python function
returns `(timing_point, crossing_distance, method, within_025_nm)` where
`timing_point` is `None` exactly when `crossing_distance` is
`float("inf")`; the first two components are therefore bundled into one
`Option`. -/
structure CheckpointCrossing where
  found : Option (TimedCoord × ℚ)
  method : Method
  within_radius : Bool
  deriving DecidableEq, Repr

/-- Step 1 of `find_checkpoint_crossing` (lines 149-161): the first
track point strictly after `previous_time` lying within the checkpoint
radius, paired with its distance. -/
def radius_entry_scan (g : Geodesy) (checkpoint : Coord) (radius previous_time : ℚ)
    (track_points : List TrackPoint) : Option (TrackPoint × ℚ) :=
  track_points.findSome? (fun p =>
    if p.time > previous_time then
      let distance := g.dist p.coord checkpoint
      if distance ≤ radius then some (p, distance) else none
    else none)

/-- The signed angular offset of lines 180-186: `(x + 360) % 360`,
then mapped from `[0, 360)` into `(-180, 180]`. -/
def normalize_signed (x : ℚ) : ℚ :=
  let a := qmod (x + 360) 360
  if a > 180 then a - 360 else a

/-- The interpolation fraction of lines 188-191: one half when the two
offsets differ by less than the 1e-10 guard, otherwise
`|d1| / |d1 - d2|`. -/
def crossing_fraction (d1 d2 : ℚ) : ℚ :=
  if |d1 - d2| < 1/10^10 then 1/2
  else |d1| / |d1 - d2|

/-- Step 2 of `find_checkpoint_crossing` (lines 163-199): scan
consecutive pairs whose first point is strictly after `previous_time`;
at the first pair straddling the perpendicular plane, interpolate the
crossing point and return it with its distance to the checkpoint. -/
def plane_crossing_scan (g : Geodesy) (checkpoint : Coord) (plane_bearing previous_time : ℚ) :
    List TrackPoint → Option (TimedCoord × ℚ)
  | p1 :: p2 :: rest =>
    if p1.time ≤ previous_time then
      plane_crossing_scan g checkpoint plane_bearing previous_time (p2 :: rest)
    else
      let side1 := side_of_plane g p1.coord checkpoint plane_bearing
      let side2 := side_of_plane g p2.coord checkpoint plane_bearing
      if side1 ≠ side2 then
        let angle_diff1 := normalize_signed (g.bearing checkpoint p1.coord - plane_bearing)
        let angle_diff2 := normalize_signed (g.bearing checkpoint p2.coord - plane_bearing)
        let fraction := crossing_fraction angle_diff1 angle_diff2
        let temp_crossing_point := interpolate_point p1 p2 fraction
        some (temp_crossing_point, g.dist temp_crossing_point.coord checkpoint)
      else
        plane_crossing_scan g checkpoint plane_bearing previous_time (p2 :: rest)
  | _ => none

/-- The point-of-closest-approach fallback shared by the last two
branches of `find_checkpoint_crossing` (lines 229-269): among the points
strictly after `previous_time`, the one closest to the checkpoint, or
the error tuple `(None, inf, "PCA", False)` when there are none. -/
def pca_fallback (g : Geodesy) (checkpoint : Coord) (radius previous_time : ℚ)
    (track_points : List TrackPoint) : CheckpointCrossing :=
  let valid_points := track_points.filter (fun p => p.time > previous_time)
  match min_by_key (fun p => g.dist p.coord checkpoint) valid_points with
  | some closest_point =>
    let crossing_distance := g.dist closest_point.coord checkpoint
    { found := some (closest_point.toTimed, crossing_distance)
      method := Method.PCA
      within_radius := crossing_distance ≤ radius }
  | none =>
    { found := none, method := Method.PCA, within_radius := false }

/-- Embedding of `NavScoringEngine.find_checkpoint_crossing` (lines
126-271): radius-entry scan, plane-crossing scan, then the four-way
precedence rule of lines 207-269. -/
def find_checkpoint_crossing (g : Geodesy) (cfg : ScoringCfg) (track_points : List TrackPoint)
    (checkpoint : Coord) (previous_point : Coord) (previous_time : ℚ) : CheckpointCrossing :=
  let radius := cfg.off_course.max_no_penalty_nm
  let flight_path_bearing := g.bearing previous_point checkpoint
  let plane_bearing := qmod (flight_path_bearing + 90) 360
  match radius_entry_scan g checkpoint radius previous_time track_points,
        plane_crossing_scan g checkpoint plane_bearing previous_time track_points with
  | some (radius_entry_point, radius_entry_distance), some (plane_crossing_point, plane_crossing_distance) =>
    if radius_entry_point.time < plane_crossing_point.time then
      { found := some (plane_crossing_point, plane_crossing_distance)
        method := Method.CTP
        within_radius := true }
    else
      { found := some (radius_entry_point.toTimed, radius_entry_distance)
        method := Method.RadiusEntry
        within_radius := true }
  | some (radius_entry_point, radius_entry_distance), none =>
    { found := some (radius_entry_point.toTimed, radius_entry_distance)
      method := Method.RadiusEntry
      within_radius := true }
  | none, some _ => pca_fallback g checkpoint radius previous_time track_points
  | none, none => pca_fallback g checkpoint radius previous_time track_points

/-- A checkpoint as configured for a route: a name and a coordinate. -/
structure Checkpoint where
  name : String
  coord : Coord
  deriving DecidableEq, Repr

/-- One entry of `checkpoint_results` as built by `submit_flight`
(app.py lines 1637-1647). -/
structure LegResult where
  name : String
  distance_nm : ℚ
  within_0_25_nm : Bool
  method : Method
  estimated_time : ℚ
  actual_time : ℚ
  deviation : ℚ
  leg_score : ℚ
  off_course_penalty : ℚ
  deriving DecidableEq, Repr

/-- Embedding of the checkpoint-scoring loop of `submit_flight` (app.py
lines 1616-1650).  Checkpoints are zipped with their estimated leg
times (app.py indexes `prenav["leg_times"][i]` after validating at line
1590 that the two lists have equal length).  When
`find_checkpoint_crossing` returns no timing point, the loop logs an
error and `continue`s (lines 1624-1626), keeping the previous crossing
as the reference for the next leg. -/
def score_checkpoints (g : Geodesy) (cfg : ScoringCfg) (track_points : List TrackPoint) :
    List (Checkpoint × ℚ) → Coord → ℚ → List LegResult
  | [], _, _ => []
  | (checkpoint, estimated_time) :: rest, previous_point, previous_time =>
    let r := find_checkpoint_crossing g cfg track_points checkpoint.coord previous_point previous_time
    match r.found with
    | none =>
      score_checkpoints g cfg track_points rest previous_point previous_time
    | some (timing_point, distance_nm) =>
      let actual_time := timing_point.time - previous_time
      let scores := calculate_leg_score cfg actual_time estimated_time distance_nm r.within_radius
      { name := checkpoint.name
        distance_nm := distance_nm
        within_0_25_nm := r.within_radius
        method := r.method
        estimated_time := estimated_time
        actual_time := actual_time
        deviation := actual_time - estimated_time
        leg_score := scores.1
        off_course_penalty := scores.2 } ::
      score_checkpoints g cfg track_points rest timing_point.coord timing_point.time

/-- Flight-level totals computed by `submit_flight` (app.py lines
1662-1681) from the leg results, the pilot's declared total time
(`prenav["total_time"]`), and `timing_penalty_per_second`. -/
structure FlightTotals where
  leg_penalties : ℚ
  actual_total_time : ℚ
  total_time_deviation : ℚ
  total_time_penalty : ℚ
  total_time_score : ℚ
  total_off_course : ℚ
  deriving DecidableEq, Repr

/-- Embedding of app.py lines 1662-1681: sums of leg penalties and
actual times, the deviation of the actual total from the pilot's single
declared total, and the resulting flight-level timing components. -/
def flight_totals (checkpoint_results : List LegResult) (declared_total_time : ℚ)
    (timing_penalty_per_second : ℚ) : FlightTotals :=
  let leg_penalties := (checkpoint_results.map (fun cp => cp.leg_score)).sum
  let actual_total_time := (checkpoint_results.map (fun cp => cp.actual_time)).sum
  let total_time_deviation := actual_total_time - declared_total_time
  let total_time_penalty := |total_time_deviation| * timing_penalty_per_second
  { leg_penalties := leg_penalties
    actual_total_time := actual_total_time
    total_time_deviation := total_time_deviation
    total_time_penalty := total_time_penalty
    total_time_score := leg_penalties + total_time_penalty
    total_off_course := (checkpoint_results.map (fun cp => cp.off_course_penalty)).sum }

/-! Concrete instances used by the witnesses: an arbitrary executable
geodesy (taxicab distance, bearing 0 northward / 180 southward) — every
theorem below is proved for all geodesies, so any concrete choice
exercises it. -/

/-- A concrete executable geodesy for witnesses. -/
def taxicab : Geodesy :=
  { dist := fun a b => |a.lat - b.lat| + |a.lon - b.lon|
    bearing := fun a b => if a.lat ≤ b.lat then 0 else 180 }

/-- Claim C9: the timing penalty of `calculate_leg_score` equals
`|actual_time − estimated_time| * timing_penalty_per_second` and, for a
penalty rate that is nonnegative (the default is 1.0), it is
non-decreasing in the absolute deviation `|actual_time − estimated_time|`. -/
theorem leg_timing_penalty_monotone (cfg : ScoringCfg) (estimated_time : ℚ) :
    (∀ (actual_time d : ℚ) (w : Bool),
      (calculate_leg_score cfg actual_time estimated_time d w).1 =
        |actual_time - estimated_time| * cfg.timing_penalty_per_second) ∧
    (∀ (a1 a2 d1 d2 : ℚ) (w1 w2 : Bool),
      0 ≤ cfg.timing_penalty_per_second →
      |a1 - estimated_time| ≤ |a2 - estimated_time| →
      (calculate_leg_score cfg a1 estimated_time d1 w1).1 ≤
        (calculate_leg_score cfg a2 estimated_time d2 w2).1) := by
  constructor
  · intro actual_time d w
    rfl
  · intro a1 a2 d1 d2 w1 w2 hrate hdev
    show |a1 - estimated_time| * cfg.timing_penalty_per_second ≤
      |a2 - estimated_time| * cfg.timing_penalty_per_second
    exact mul_le_mul_of_nonneg_right hdev hrate

/-- Witness for C9 at concrete inputs: estimated 600 s, actual times
599 s and 612 s under the default configuration. -/
theorem leg_timing_penalty_monotone_witness :
    (0:ℚ) ≤ defaultCfg.timing_penalty_per_second ∧
    |(599:ℚ) - 600| ≤ |(612:ℚ) - 600| ∧
    (calculate_leg_score defaultCfg 599 600 0 true).1 ≤
      (calculate_leg_score defaultCfg 612 600 0 true).1 :=
  ⟨by norm_num [defaultCfg], by norm_num,
    (leg_timing_penalty_monotone defaultCfg 600).2 599 612 0 0 true true
      (by norm_num [defaultCfg]) (by norm_num)⟩

/-- Claim C2: under the default configuration the off-course penalty of
`calculate_leg_score` is 0 for a leg within the radius; otherwise it is
0 at the radius 0.25 NM, exactly 100 at 0.26 NM, linearly interpolated
from 100 to exactly 600 on [0.26, 5.0] NM, and a flat 600 beyond
5.0 NM. -/
theorem leg_off_course_penalty_piecewise (actual_time estimated_time d : ℚ) :
    ((calculate_leg_score defaultCfg actual_time estimated_time d true).2 = 0) ∧
    ((calculate_leg_score defaultCfg actual_time estimated_time (1/4) false).2 = 0) ∧
    ((calculate_leg_score defaultCfg actual_time estimated_time (1/4 + 1/100) false).2 = 100) ∧
    (1/4 + 1/100 ≤ d → d ≤ 5 →
      (calculate_leg_score defaultCfg actual_time estimated_time d false).2 =
        100 + (d - 26/100) / (5 - 26/100) * (600 - 100)) ∧
    ((calculate_leg_score defaultCfg actual_time estimated_time 5 false).2 = 600) ∧
    (5 < d → (calculate_leg_score defaultCfg actual_time estimated_time d false).2 = 600) := by
  refine ⟨rfl, by norm_num [calculate_leg_score, defaultCfg], ?_, ?_, ?_, ?_⟩
  · norm_num [calculate_leg_score, defaultCfg]
  · intro h1 h2
    have h1' : (26:ℚ)/100 ≤ d := by linarith
    simp only [calculate_leg_score, defaultCfg, Bool.false_eq_true, if_false]
    norm_num [h1', h2]
    intro hlt
    linarith
  · norm_num [calculate_leg_score, defaultCfg]
  · intro h
    have h2 : ¬(d ≤ (5:ℚ)) := not_le.mpr h
    simp only [calculate_leg_score, defaultCfg, Bool.false_eq_true, if_false]
    norm_num [h2, h]

/-- Witness for C2 at the concrete distance 3 NM (inside the linear
band). -/
theorem leg_off_course_penalty_piecewise_witness :
    (1:ℚ)/4 + 1/100 ≤ 3 ∧ (3:ℚ) ≤ 5 ∧
    (calculate_leg_score defaultCfg 0 0 3 false).2 =
      100 + ((3:ℚ) - 26/100) / (5 - 26/100) * (600 - 100) :=
  ⟨by norm_num, by norm_num,
    (leg_off_course_penalty_piecewise 0 0 3).2.2.2.1 (by norm_num) (by norm_num)⟩

/-- A leg result with estimate 600 s and a given actual time, as built
by the submission loop for an exactly-overflown checkpoint. -/
def scenario_leg (actual : ℚ) : LegResult :=
  { name := "CP"
    distance_nm := 0
    within_0_25_nm := true
    method := Method.CTP
    estimated_time := 600
    actual_time := actual
    deviation := actual - 600
    leg_score := |actual - 600| * 1
    off_course_penalty := 0 }

/-- The spec's concrete scenario for the total-time penalty: five legs
declared at 600 s each, actual times summing to 2999 s. -/
def scenario_results : List LegResult :=
  [scenario_leg 599, scenario_leg 600, scenario_leg 600, scenario_leg 600, scenario_leg 600]

/-- Claim C6: the flight-level total-time penalty is
`|Σ actual_time − declared_total| * timing_penalty_per_second`, computed
from the pilot's single declared total, not from the sum of the declared
per-leg estimates; the concrete scenario (five 600 s legs, actual total
2999 s, declared total 3060 s, rate 1.0) yields 61 points, distinct
from the 1 point that the sum of per-leg estimates would give. -/
theorem flight_total_time_penalty_from_declared_total :
    (∀ (checkpoint_results : List LegResult) (declared_total tpps : ℚ),
      (flight_totals checkpoint_results declared_total tpps).total_time_penalty =
        |(checkpoint_results.map (fun cp => cp.actual_time)).sum - declared_total| * tpps) ∧
    ((flight_totals scenario_results 3060 1).total_time_penalty = 61 ∧
      (scenario_results.map (fun cp => cp.estimated_time)).sum = 3000 ∧
      (flight_totals scenario_results 3060 1).total_time_penalty ≠
        |(scenario_results.map (fun cp => cp.actual_time)).sum -
          (scenario_results.map (fun cp => cp.estimated_time)).sum| * 1) := by
  refine ⟨fun checkpoint_results declared_total tpps => rfl, ?_, ?_, ?_⟩ <;>
    norm_num [flight_totals, scenario_results, scenario_leg]

/-- Claim C3: `calculate_fuel_penalty` returns 0 on a zero estimate;
with signed error `e = (estimated − actual) / estimated` it returns
`under_multiplier * (exp |e| − 1)` for every `e < 0` (strictly positive
for a positive multiplier — no underestimate tolerance),
`over_multiplier * (exp e − 1)` for every `e` above the (nonnegative)
overestimate threshold, and 0 inside the tolerance band
`0 ≤ e ≤ threshold`. -/
theorem fuel_penalty_cases (cfg : FuelCfg) (estimated_fuel actual_fuel : ℝ) :
    (estimated_fuel = 0 → calculate_fuel_penalty cfg estimated_fuel actual_fuel = 0) ∧
    (estimated_fuel ≠ 0 → (estimated_fuel - actual_fuel) / estimated_fuel < 0 →
      calculate_fuel_penalty cfg estimated_fuel actual_fuel =
        cfg.under_estimate_multiplier *
          (Real.exp |(estimated_fuel - actual_fuel) / estimated_fuel| - 1)) ∧
    (estimated_fuel ≠ 0 → (estimated_fuel - actual_fuel) / estimated_fuel < 0 →
      0 < cfg.under_estimate_multiplier →
      0 < calculate_fuel_penalty cfg estimated_fuel actual_fuel) ∧
    (estimated_fuel ≠ 0 → 0 ≤ cfg.over_estimate_threshold →
      cfg.over_estimate_threshold < (estimated_fuel - actual_fuel) / estimated_fuel →
      calculate_fuel_penalty cfg estimated_fuel actual_fuel =
        cfg.over_estimate_multiplier *
          (Real.exp ((estimated_fuel - actual_fuel) / estimated_fuel) - 1)) ∧
    (estimated_fuel ≠ 0 → 0 ≤ (estimated_fuel - actual_fuel) / estimated_fuel →
      (estimated_fuel - actual_fuel) / estimated_fuel ≤ cfg.over_estimate_threshold →
      calculate_fuel_penalty cfg estimated_fuel actual_fuel = 0) := by
  set e := (estimated_fuel - actual_fuel) / estimated_fuel with he
  refine ⟨fun h0 => by simp [calculate_fuel_penalty, h0], ?_, ?_, ?_, ?_⟩
  · intro hne hneg
    rw [calculate_fuel_penalty, if_neg hne]
    simp only [← he]
    rw [if_pos hneg]
  · intro hne hneg hmul
    rw [calculate_fuel_penalty, if_neg hne]
    simp only [← he]
    rw [if_pos hneg]
    have habs : 0 < |e| := abs_pos.mpr (ne_of_lt hneg)
    have hexp : 1 < Real.exp |e| := Real.one_lt_exp_iff.mpr habs
    exact mul_pos hmul (by linarith)
  · intro hne hthr hgt
    have hnneg : ¬ e < 0 := not_lt.mpr (le_of_lt (lt_of_le_of_lt hthr hgt))
    rw [calculate_fuel_penalty, if_neg hne]
    simp only [← he]
    rw [if_neg hnneg, if_pos hgt]
  · intro hne hge hle
    have hnneg : ¬ e < 0 := not_lt.mpr hge
    have hngt : ¬ cfg.over_estimate_threshold < e := not_lt.mpr hle
    rw [calculate_fuel_penalty, if_neg hne]
    simp only [← he]
    rw [if_neg hnneg, if_neg hngt]

/-- Witness for C3: the default fuel configuration with estimate 10 and
actual 10.1 gallons (an underestimate) yields a strictly positive
penalty. -/
theorem fuel_penalty_cases_witness :
    (10:ℝ) ≠ 0 ∧ ((10:ℝ) - 101/10) / 10 < 0 ∧
    0 < calculate_fuel_penalty ⟨250, 500, 1/10⟩ 10 (101/10) :=
  ⟨by norm_num, by norm_num,
    (fuel_penalty_cases ⟨250, 500, 1/10⟩ 10 (101/10)).2.2.1 (by norm_num) (by norm_num)
      (by norm_num)⟩

/-- Claim C1: when both the radius-entry scan and the plane-crossing
scan succeed, `find_checkpoint_crossing` applies the precedence rule: a
strictly earlier radius entry yields method CTP with the plane
crossing's point, time and distance and `within_radius = true`, while
an earlier-or-equal plane crossing yields method Radius Entry with the
radius entry's point, time and distance and `within_radius = true`. -/
theorem checkpoint_precedence_rule
    (g : Geodesy) (cfg : ScoringCfg) (track_points : List TrackPoint)
    (checkpoint previous_point : Coord) (previous_time : ℚ)
    (radius_entry_point : TrackPoint) (radius_entry_distance : ℚ)
    (plane_crossing_point : TimedCoord) (plane_crossing_distance : ℚ)
    (hradius : radius_entry_scan g checkpoint cfg.off_course.max_no_penalty_nm previous_time
        track_points = some (radius_entry_point, radius_entry_distance))
    (hplane : plane_crossing_scan g checkpoint
        (qmod (g.bearing previous_point checkpoint + 90) 360) previous_time track_points =
        some (plane_crossing_point, plane_crossing_distance)) :
    (radius_entry_point.time < plane_crossing_point.time →
      find_checkpoint_crossing g cfg track_points checkpoint previous_point previous_time =
        ⟨some (plane_crossing_point, plane_crossing_distance), Method.CTP, true⟩) ∧
    (plane_crossing_point.time ≤ radius_entry_point.time →
      find_checkpoint_crossing g cfg track_points checkpoint previous_point previous_time =
        ⟨some (radius_entry_point.toTimed, radius_entry_distance), Method.RadiusEntry, true⟩) := by
  constructor
  · intro hlt
    simp only [find_checkpoint_crossing, hradius, hplane, if_pos hlt]
  · intro hle
    simp only [find_checkpoint_crossing, hradius, hplane]
    rw [if_neg (not_lt.mpr hle)]

/-- Witness track for C1: enters the 0.25 NM radius of the checkpoint
at the origin at t = 10 s and crosses the perpendicular plane
(interpolated) at t = 11 s. -/
def w_track1 : List TrackPoint := [⟨-1/10, 0, 10, 10⟩, ⟨1/10, 0, 12, 10⟩]

/-- Witness for C1: on `w_track1` both scans succeed, the radius entry
(t = 10) precedes the plane crossing (t = 11), and the result is CTP at
the plane-crossing point. -/
theorem checkpoint_precedence_rule_witness :
    radius_entry_scan taxicab ⟨0,0⟩ defaultCfg.off_course.max_no_penalty_nm 0 w_track1 =
      some (⟨-1/10, 0, 10, 10⟩, 1/10) ∧
    plane_crossing_scan taxicab ⟨0,0⟩ (qmod (taxicab.bearing ⟨-1,0⟩ ⟨0,0⟩ + 90) 360) 0 w_track1 =
      some (⟨0, 0, 11⟩, 0) ∧
    find_checkpoint_crossing taxicab defaultCfg w_track1 ⟨0,0⟩ ⟨-1,0⟩ 0 =
      ⟨some (⟨0, 0, 11⟩, 0), Method.CTP, true⟩ := by
  have h1 : radius_entry_scan taxicab ⟨0,0⟩ defaultCfg.off_course.max_no_penalty_nm 0 w_track1 =
      some (⟨-1/10, 0, 10, 10⟩, 1/10) := by
    norm_num [radius_entry_scan, taxicab, defaultCfg, w_track1, TrackPoint.coord,
      List.findSome?_cons, abs_of_nonneg, abs_of_nonpos]
  have h2 : plane_crossing_scan taxicab ⟨0,0⟩
      (qmod (taxicab.bearing ⟨-1,0⟩ ⟨0,0⟩ + 90) 360) 0 w_track1 = some (⟨0, 0, 11⟩, 0) := by
    norm_num [plane_crossing_scan, taxicab, defaultCfg, w_track1, TrackPoint.coord, qmod,
      side_of_plane, normalize_signed, crossing_fraction, interpolate_point, TimedCoord.coord,
      abs_of_nonneg, abs_of_nonpos]
  exact ⟨h1, h2,
    (checkpoint_precedence_rule taxicab defaultCfg w_track1 ⟨0,0⟩ ⟨-1,0⟩ 0
      ⟨-1/10, 0, 10, 10⟩ (1/10) ⟨0, 0, 11⟩ 0 h1 h2).1 (by norm_num)⟩

/-- Claim C8 (amended): the interpolation fraction is one half whenever
the two signed offsets differ by less than the 1e-10 guard (in
particular whenever they are equal), and `|d1| / |d1 - d2|` otherwise,
in which case the denominator is nonzero: the division is never
performed with a zero denominator. -/
theorem crossing_fraction_guarded (d1 d2 : ℚ) :
    (|d1 - d2| < 1/10^10 → crossing_fraction d1 d2 = 1/2) ∧
    (1/10^10 ≤ |d1 - d2| →
      crossing_fraction d1 d2 = |d1| / |d1 - d2| ∧ |d1 - d2| ≠ 0) := by
  constructor
  · intro h
    rw [crossing_fraction, if_pos h]
  · intro h
    refine ⟨by rw [crossing_fraction, if_neg (not_lt.mpr h)], fun h0 => ?_⟩
    rw [h0] at h
    norm_num at h

/-- Witness for the amended C8 at the offsets 90 and -90 produced by
`w_track1`. -/
theorem crossing_fraction_guarded_witness :
    (1:ℚ)/10^10 ≤ |(90:ℚ) - -90| ∧
    crossing_fraction 90 (-90) = |(90:ℚ)| / |(90:ℚ) - -90| ∧ |(90:ℚ) - -90| ≠ 0 :=
  ⟨by norm_num, (crossing_fraction_guarded 90 (-90)).2 (by norm_num)⟩

/-- Geodesy for the C8 counterexample: the checkpoint-to-point bearing
is 0 degrees for the point at latitude 1 and 360 - 1e-11 degrees for
any other point, putting the two points on opposite sides of a plane at
bearing 0 with signed offsets 0 and -1e-11. -/
def cex_geo : Geodesy :=
  { dist := fun _ _ => 0
    bearing := fun _ p => if p.lat = 1 then 0 else 360 - 1/10^11 }

/-- Counterexample to C8 as stated: two points on opposite sides of the
plane whose signed offsets d1 = 0 and d2 = -1e-11 differ by less than
the 1e-10 guard of line 188; the code takes fraction 1/2 although
d1 ≠ d2 and |d1| / |d1 - d2| = 0. -/
theorem crossing_fraction_claim_counterexample :
    side_of_plane cex_geo ⟨1,0⟩ ⟨0,0⟩ 0 ≠ side_of_plane cex_geo ⟨2,0⟩ ⟨0,0⟩ 0 ∧
    normalize_signed (cex_geo.bearing ⟨0,0⟩ ⟨1,0⟩ - 0) ≠
      normalize_signed (cex_geo.bearing ⟨0,0⟩ ⟨2,0⟩ - 0) ∧
    crossing_fraction (normalize_signed (cex_geo.bearing ⟨0,0⟩ ⟨1,0⟩ - 0))
        (normalize_signed (cex_geo.bearing ⟨0,0⟩ ⟨2,0⟩ - 0)) ≠
      |normalize_signed (cex_geo.bearing ⟨0,0⟩ ⟨1,0⟩ - 0)| /
        |normalize_signed (cex_geo.bearing ⟨0,0⟩ ⟨1,0⟩ - 0) -
          normalize_signed (cex_geo.bearing ⟨0,0⟩ ⟨2,0⟩ - 0)| := by
  norm_num [side_of_plane, normalize_signed, crossing_fraction, cex_geo, qmod,
    abs_of_nonneg, abs_of_nonpos]

/-- Failing input for C4: a single-checkpoint leg whose track has no
point strictly after the previous crossing time 10 s. -/
def w_track3 : List TrackPoint := [⟨0, 0, 0, 0⟩]

/-- Claim C4 at the failing input: `find_checkpoint_crossing` does
signal the failure (no timing point), but the submission loop of
app.py lines 1624-1626 silently skips the leg and returns a normal,
error-free result list instead of invalidating the flight. -/
theorem missing_leg_silently_skipped :
    (find_checkpoint_crossing taxicab defaultCfg w_track3 ⟨0,0⟩ ⟨-1,0⟩ 10).found = none ∧
    score_checkpoints taxicab defaultCfg w_track3 [(⟨"CP1", ⟨0,0⟩⟩, 600)] ⟨-1,0⟩ 10 = [] := by
  constructor <;>
    norm_num [find_checkpoint_crossing, radius_entry_scan, plane_crossing_scan, taxicab,
      defaultCfg, w_track3, TrackPoint.coord, List.findSome?_cons, qmod, side_of_plane,
      normalize_signed, crossing_fraction, interpolate_point, TimedCoord.coord,
      pca_fallback, min_by_key, score_checkpoints, abs_of_nonneg, abs_of_nonpos]

/-- The running minimum of the fold underlying `min_by_key` is either
the seed or one of the folded elements. -/
lemma foldl_min_mem (f : TrackPoint → ℚ) :
    ∀ (xs : List TrackPoint) (x : TrackPoint),
      xs.foldl (fun acc y => if f y < f acc then y else acc) x ∈ x :: xs
  | [], _ => by simp
  | y :: ys, x => by
    simp only [List.foldl_cons]
    rcases List.mem_cons.mp (foldl_min_mem f ys (if f y < f x then y else x)) with h1 | h2
    · rw [h1]
      by_cases hc : f y < f x
      · simp [hc]
      · simp [hc]
    · simp [List.mem_cons, h2]

/-- A minimum returned by `min_by_key` belongs to the list. -/
lemma min_by_key_mem {f : TrackPoint → ℚ} {l : List TrackPoint} {c : TrackPoint}
    (h : min_by_key f l = some c) : c ∈ l := by
  cases l with
  | nil => simp [min_by_key] at h
  | cons x xs =>
    rw [min_by_key] at h
    exact Option.some.inj h ▸ foldl_min_mem f xs x

/-- When the radius-entry scan fails, every track point strictly after
`previous_time` lies strictly outside the radius. -/
lemma radius_entry_scan_none {g : Geodesy} {checkpoint : Coord} {radius previous_time : ℚ}
    {track_points : List TrackPoint}
    (h : radius_entry_scan g checkpoint radius previous_time track_points = none) :
    ∀ p ∈ track_points, p.time > previous_time → radius < g.dist p.coord checkpoint := by
  intro p hp hpt
  by_contra hle
  push_neg at hle
  have hnone := List.findSome?_eq_none_iff.mp h p hp
  simp [hpt, hle] at hnone

/-- When every candidate point lies strictly outside the radius, the
PCA fallback reports `within_radius = false`. -/
lemma pca_fallback_outside {g : Geodesy} {checkpoint : Coord} {radius previous_time : ℚ}
    {track_points : List TrackPoint}
    (hfar : ∀ p ∈ track_points, p.time > previous_time → radius < g.dist p.coord checkpoint) :
    (pca_fallback g checkpoint radius previous_time track_points).within_radius = false := by
  simp only [pca_fallback]
  split
  case _ closest hmin =>
    have hc := min_by_key_mem hmin
    obtain ⟨hmem, hgt⟩ := List.mem_filter.mp hc
    have hlt := hfar closest hmem (by simpa using hgt)
    simp [decide_eq_false_iff_not, not_le, hlt]
  case _ hmin => rfl

/-- Claim C10: whenever `find_checkpoint_crossing` reports method PCA
together with a timing point, the `within_radius` flag is false — the
PCA branches are reached only when the radius scan found no point
within the radius after `previous_time`, so the closest approach is
strictly outside the radius. -/
theorem pca_implies_outside_radius
    (g : Geodesy) (cfg : ScoringCfg) (track_points : List TrackPoint)
    (checkpoint previous_point : Coord) (previous_time : ℚ)
    (timing_point : TimedCoord) (crossing_distance : ℚ)
    (hmethod : (find_checkpoint_crossing g cfg track_points checkpoint previous_point
        previous_time).method = Method.PCA)
    (hfound : (find_checkpoint_crossing g cfg track_points checkpoint previous_point
        previous_time).found = some (timing_point, crossing_distance)) :
    (find_checkpoint_crossing g cfg track_points checkpoint previous_point
        previous_time).within_radius = false := by
  cases hre : radius_entry_scan g checkpoint cfg.off_course.max_no_penalty_nm previous_time
      track_points with
  | some rr =>
    obtain ⟨radius_entry_point, radius_entry_distance⟩ := rr
    cases hpc : plane_crossing_scan g checkpoint
        (qmod (g.bearing previous_point checkpoint + 90) 360) previous_time track_points with
    | some pp =>
      obtain ⟨plane_crossing_point, plane_crossing_distance⟩ := pp
      simp only [find_checkpoint_crossing, hre, hpc] at hmethod
      split at hmethod <;> simp at hmethod
    | none =>
      simp only [find_checkpoint_crossing, hre, hpc] at hmethod
      simp at hmethod
  | none =>
    cases hpc : plane_crossing_scan g checkpoint
        (qmod (g.bearing previous_point checkpoint + 90) 360) previous_time track_points with
    | some pp =>
      simp only [find_checkpoint_crossing, hre, hpc]
      exact pca_fallback_outside (radius_entry_scan_none hre)
    | none =>
      simp only [find_checkpoint_crossing, hre, hpc]
      exact pca_fallback_outside (radius_entry_scan_none hre)

/-- Witness track for C10: a single point one NM from the checkpoint,
after the previous time, with no plane crossing. -/
def w_track2 : List TrackPoint := [⟨1, 0, 5, 0⟩]

/-- Witness for C10: on `w_track2` the locator reports PCA with a
timing point, and the within-radius flag is false. -/
theorem pca_implies_outside_radius_witness :
    (find_checkpoint_crossing taxicab defaultCfg w_track2 ⟨0,0⟩ ⟨-1,0⟩ 0).method = Method.PCA ∧
    (find_checkpoint_crossing taxicab defaultCfg w_track2 ⟨0,0⟩ ⟨-1,0⟩ 0).found =
      some (⟨1, 0, 5⟩, 1) ∧
    (find_checkpoint_crossing taxicab defaultCfg w_track2 ⟨0,0⟩ ⟨-1,0⟩ 0).within_radius = false := by
  have hv : find_checkpoint_crossing taxicab defaultCfg w_track2 ⟨0,0⟩ ⟨-1,0⟩ 0 =
      ⟨some (⟨1, 0, 5⟩, 1), Method.PCA, false⟩ := by
    norm_num [find_checkpoint_crossing, radius_entry_scan, plane_crossing_scan, taxicab,
      defaultCfg, w_track2, TrackPoint.coord, List.findSome?_cons, qmod, side_of_plane,
      normalize_signed, crossing_fraction, interpolate_point, TimedCoord.coord,
      pca_fallback, min_by_key, TrackPoint.toTimed, abs_of_nonneg, abs_of_nonpos]
  exact ⟨by rw [hv], by rw [hv],
    pca_implies_outside_radius taxicab defaultCfg w_track2 ⟨0,0⟩ ⟨-1,0⟩ 0 ⟨1, 0, 5⟩ 1
      (by rw [hv]) (by rw [hv])⟩

/-- Every threshold visited by the expanding search is at most
0.10 NM. -/
lemma thresholds_le : ∀ t ∈ thresholds, t ≤ 1/10 := by
  norm_num [thresholds]

/-- Claim C5: for a non-empty track, if no point within the first half
of the track's total duration lies within 0.10 NM of the start gate,
then `detect_start_gate_crossing` returns failure (`None`), never an
approximate match. -/
theorem start_gate_no_approximate_match
    (g : Geodesy) (p0 : TrackPoint) (rest : List TrackPoint) (start_gate : Coord)
    (hfar : ∀ p ∈ p0 :: rest, p.time ≤ half_time_limit p0 rest →
      1/10 < g.dist p.coord start_gate) :
    detect_start_gate_crossing g (p0 :: rest) start_gate = none := by
  rw [detect_start_gate_crossing]
  apply List.findSome?_eq_none_iff.mpr
  intro thr hthr
  have hle : thr ≤ 1/10 := thresholds_le thr hthr
  rw [start_gate_step]
  have hspeed : start_candidates_speed g (p0 :: rest) start_gate
      (half_time_limit p0 rest) thr = [] := by
    rw [start_candidates_speed]
    apply List.filterMap_eq_nil_iff.mpr
    intro p hp
    by_cases ht : p.time > half_time_limit p0 rest
    · simp [ht]
    · push_neg at ht
      have hd := hfar p hp ht
      have hc : ¬(g.dist p.coord start_gate ≤ thr ∧ p.speed ≥ 5) := fun hc =>
        absurd (le_trans hc.1 hle) (not_le.mpr hd)
      simp [not_lt.mpr ht, hc]
  have hall : start_candidates_all g (p0 :: rest) start_gate
      (half_time_limit p0 rest) thr = [] := by
    rw [start_candidates_all]
    apply List.filterMap_eq_nil_iff.mpr
    intro p hp
    by_cases ht : p.time ≤ half_time_limit p0 rest
    · have hd := hfar p hp ht
      have hc : ¬(g.dist p.coord start_gate ≤ thr ∧ p.time ≤ half_time_limit p0 rest) :=
        fun hc => absurd (le_trans hc.1 hle) (not_le.mpr hd)
      simp [hc]
    · have hc : ¬(g.dist p.coord start_gate ≤ thr ∧ p.time ≤ half_time_limit p0 rest) :=
        fun hc => ht hc.2
      simp [hc]
  rw [hspeed, hall]
  rfl

/-- Witness for C5: a one-point track ten NM from the gate. -/
theorem start_gate_no_approximate_match_witness :
    (∀ p ∈ [(⟨10, 0, 0, 0⟩ : TrackPoint)], p.time ≤ half_time_limit ⟨10, 0, 0, 0⟩ [] →
      (1:ℚ)/10 < taxicab.dist p.coord ⟨0, 0⟩) ∧
    detect_start_gate_crossing taxicab [⟨10, 0, 0, 0⟩] ⟨0, 0⟩ = none := by
  have hfar : ∀ p ∈ [(⟨10, 0, 0, 0⟩ : TrackPoint)], p.time ≤ half_time_limit ⟨10, 0, 0, 0⟩ [] →
      (1:ℚ)/10 < taxicab.dist p.coord ⟨0, 0⟩ := by
    norm_num [half_time_limit, taxicab, TrackPoint.coord]
  exact ⟨hfar, start_gate_no_approximate_match taxicab ⟨10, 0, 0, 0⟩ [] ⟨0, 0⟩ hfar⟩

/-- Candidate set described by claim C7 at one threshold: among the
points of the first half of the track, those within the threshold at
ground speed at least 5.0 m/s; only if that set is empty, those within
the threshold regardless of speed. -/
def spec_candidates (g : Geodesy) (first_half : List TrackPoint) (start_gate : Coord)
    (thr : ℚ) : List TrackPoint :=
  if first_half.filter (fun p => g.dist p.coord start_gate ≤ thr ∧ p.speed ≥ 5) = [] then
    first_half.filter (fun p => g.dist p.coord start_gate ≤ thr)
  else
    first_half.filter (fun p => g.dist p.coord start_gate ≤ thr ∧ p.speed ≥ 5)

/-- Specification-side restatement of the start-gate locator, following
the wording of the claim: expand the threshold over the fixed ladder,
restrict to the first half of the track's duration, prefer the
speed-filtered candidate set, and return the closest point of the first
non-empty set together with its distance. -/
def locate_start_crossing_spec (g : Geodesy) (track_points : List TrackPoint)
    (start_gate : Coord) : Option (TrackPoint × ℚ) :=
  match track_points with
  | [] => none
  | p0 :: rest =>
    thresholds.findSome? (fun thr =>
      (min_by_key (fun p => g.dist p.coord start_gate)
        (spec_candidates g
          ((p0 :: rest).filter (fun p => p.time ≤ half_time_limit p0 rest)) start_gate thr)).map
        (fun c => (c, g.dist c.coord start_gate)))

/-- The speed-filtered scan is the speed-and-threshold filter of the
first half of the track, paired with distances. -/
lemma start_candidates_speed_eq (g : Geodesy) (l : List TrackPoint) (start_gate : Coord)
    (L thr : ℚ) :
    start_candidates_speed g l start_gate L thr =
      ((l.filter (fun p => p.time ≤ L)).filter
        (fun p => g.dist p.coord start_gate ≤ thr ∧ p.speed ≥ 5)).map
        (fun p => (p, g.dist p.coord start_gate)) := by
  rw [start_candidates_speed]
  induction l with
  | nil => rfl
  | cons x xs ih =>
    simp only [List.filterMap_cons, List.filter_cons]
    by_cases h1 : x.time > L
    · simp [h1, not_le.mpr h1, ih]
    · push_neg at h1
      by_cases h2 : g.dist x.coord start_gate ≤ thr ∧ x.speed ≥ 5
      · simp [not_lt.mpr h1, h1, h2, ih]
      · simp [not_lt.mpr h1, h1, h2, ih]

/-- The unfiltered scan is the threshold filter of the first half of
the track, paired with distances. -/
lemma start_candidates_all_eq (g : Geodesy) (l : List TrackPoint) (start_gate : Coord)
    (L thr : ℚ) :
    start_candidates_all g l start_gate L thr =
      ((l.filter (fun p => p.time ≤ L)).filter
        (fun p => g.dist p.coord start_gate ≤ thr)).map
        (fun p => (p, g.dist p.coord start_gate)) := by
  rw [start_candidates_all]
  induction l with
  | nil => rfl
  | cons x xs ih =>
    simp only [List.filterMap_cons, List.filter_cons]
    by_cases h1 : x.time ≤ L
    · by_cases h2 : g.dist x.coord start_gate ≤ thr
      · simp [h1, h2, ih]
      · simp [h1, h2, ih]
    · simp [h1, ih]

/-- Folding the pairwise minimum over distance-tagged pairs computes the
key-wise minimum together with its key. -/
lemma foldl_min_pair (f : TrackPoint → ℚ) :
    ∀ (xs : List TrackPoint) (x : TrackPoint),
      (xs.map (fun p => (p, f p))).foldl (fun acc y => if y.2 < acc.2 then y else acc) (x, f x) =
        (xs.foldl (fun acc y => if f y < f acc then y else acc) x,
         f (xs.foldl (fun acc y => if f y < f acc then y else acc) x))
  | [], _ => rfl
  | y :: ys, x => by
    simp only [List.map_cons, List.foldl_cons]
    by_cases h : f y < f x
    · simp only [if_pos h]
      exact foldl_min_pair f ys y
    · simp only [if_neg h]
      exact foldl_min_pair f ys x

/-- The closest pair of a distance-tagged list is the key-wise closest
point with its distance. -/
lemma min_by_dist_map_pair (f : TrackPoint → ℚ) (l : List TrackPoint) :
    min_by_dist (l.map (fun p => (p, f p))) =
      (min_by_key f l).map (fun c => (c, f c)) := by
  cases l with
  | nil => rfl
  | cons x xs =>
    simp only [List.map_cons, min_by_dist, min_by_key, Option.map_some']
    rw [foldl_min_pair f xs x]

/-- The key-wise minimum exists exactly on non-empty lists. -/
lemma min_by_key_eq_none {f : TrackPoint → ℚ} {l : List TrackPoint} :
    min_by_key f l = none ↔ l = [] := by
  cases l <;> simp [min_by_key]

/-- One iteration of the source's threshold loop agrees with the
candidate-set description of the claim. -/
lemma start_gate_step_eq_spec (g : Geodesy) (l : List TrackPoint) (start_gate : Coord)
    (L thr : ℚ) :
    start_gate_step g l start_gate L thr =
      (min_by_key (fun p => g.dist p.coord start_gate)
        (spec_candidates g (l.filter (fun p => p.time ≤ L)) start_gate thr)).map
        (fun c => (c, g.dist c.coord start_gate)) := by
  rw [start_gate_step, start_candidates_speed_eq, start_candidates_all_eq,
    min_by_dist_map_pair, min_by_dist_map_pair, spec_candidates]
  cases hmk : min_by_key (fun p => g.dist p.coord start_gate)
      ((l.filter (fun p => p.time ≤ L)).filter
        (fun p => g.dist p.coord start_gate ≤ thr ∧ p.speed ≥ 5)) with
  | none =>
    rw [if_pos (min_by_key_eq_none.mp hmk)]
    rfl
  | some c =>
    have hne : ((l.filter (fun p => p.time ≤ L)).filter
        (fun p => g.dist p.coord start_gate ≤ thr ∧ p.speed ≥ 5)) ≠ [] := by
      intro h
      rw [min_by_key_eq_none.mpr h] at hmk
      exact Option.noConfusion hmk
    rw [if_neg hne, hmk]
    rfl

/-- Claim C7: the start-gate locator behaves exactly as described —
thresholds 0.02 to 0.10 NM in 0.01 steps over the first half of the
track, the speed-filtered candidate set first with the unfiltered set
as fallback at the same threshold, and the closest point of the first
non-empty set, stopping there. -/
theorem start_gate_locator_matches_spec (g : Geodesy) (track_points : List TrackPoint)
    (start_gate : Coord) :
    detect_start_gate_crossing g track_points start_gate =
      locate_start_crossing_spec g track_points start_gate := by
  cases track_points with
  | nil => rfl
  | cons p0 rest =>
    rw [detect_start_gate_crossing, locate_start_crossing_spec]
    congr 1
    funext thr
    exact start_gate_step_eq_spec g (p0 :: rest) start_gate (half_time_limit p0 rest) thr

end NavScoring
